import Mathlib

/-!
Verification of the static file server in `server.py` (module `server`).

The embedding models:
  * `posixpath.normpath` (pure string normalization),
  * query/fragment stripping and `str.lstrip("/")`,
  * the `pathlib` join of a root path with a relative string,
  * the filesystem as a map from absolute-path component lists to nodes
    (regular files with content, stat size and a readability bit, or
    directories with a readability bit), together with a canonicalization
    function `resolve` modelling `Path.resolve()` (symbolic-link and `..`
    resolution as performed by the operating system),
  * `_safe_path`, `StaticFileHandler._handle_request` and `main`.

Absolute paths are represented by their component lists (`pathlib` parts
without the leading `/` anchor; the anchor is common to every absolute path
and `Path.relative_to` on two absolute paths compares the remaining parts).
-/

namespace StaticServer

/-- `request_path.split("?")[0].split("#")[0]`: everything before the first
`?`, then everything before the first `#`. -/
def stripQueryFragment (s : List Char) : List Char :=
  (s.takeWhile (fun c => !(c == '?'))).takeWhile (fun c => !(c == '#'))

/-- Split a character list at every occurrence of `sep`, like Python's
`str.split(sep)` for a one-character separator. -/
def splitOnChar (sep : Char) : List Char → List (List Char)
  | [] => [[]]
  | a :: rest =>
    match splitOnChar sep rest with
    | [] => [[a]]
    | h :: t => if a == sep then [] :: h :: t else (a :: h) :: t

/-- The component-collapsing loop inside `posixpath.normpath`: skip empty and
`.` components; append a component unless it is a `..` that cancels a
previous real component (leading `..` components are kept only for relative
paths, and dropped entirely when the path is absolute). -/
def normComps (initialSlashes : Nat) (acc : List (List Char)) :
    List (List Char) → List (List Char)
  | [] => acc
  | comp :: rest =>
    if comp == ([] : List Char) || comp == ['.'] then
      normComps initialSlashes acc rest
    else if comp != ['.', '.']
        || (initialSlashes == 0 && acc == ([] : List (List Char)))
        || (!(acc == ([] : List (List Char))) && acc.getLast? == some ['.', '.']) then
      normComps initialSlashes (acc ++ [comp]) rest
    else if !(acc == ([] : List (List Char))) then
      normComps initialSlashes acc.dropLast rest
    else
      normComps initialSlashes acc rest

/-- `posixpath.normpath`: purely syntactic collapsing of `.`, `..` and
repeated separators. An empty path yields `.`; one leading slash is kept,
exactly two leading slashes are kept as two (POSIX), three or more collapse
to one. -/
def normpath (s : List Char) : List Char :=
  if s == ([] : List Char) then ['.']
  else
    let initialSlashes : Nat :=
      if s.take 1 == ['/'] then
        if s.take 2 == ['/', '/'] && !(s.take 3 == ['/', '/', '/']) then 2 else 1
      else 0
    let newComps := normComps initialSlashes [] (splitOnChar '/' s)
    let joined := List.replicate initialSlashes '/' ++ List.intercalate ['/'] newComps
    if joined == ([] : List Char) then ['.'] else joined

/-- `str.lstrip("/")`: drop every leading `/`. -/
def lstripSlashes (s : List Char) : List Char :=
  s.dropWhile (fun c => c == '/')

/-- The `pathlib` join `root / relative` on parts: the relative string is
split at `/`, and empty as well as single-dot components are collapsed
(`..` components are kept; `relative` is never absolute here because every
leading slash was stripped). -/
def joinParts (root : List String) (relative : List Char) : List String :=
  root ++ ((splitOnChar '/' relative).filter
    (fun c => !(c == ([] : List Char)) && !(c == ['.']))).map String.mk

/-- The path handed to `Path.resolve()` inside `_safe_path`: strip query and
fragment, `posixpath.normpath`, strip leading slashes, join onto the root. -/
def prelimPath (root : List String) (request_path : String) : List String :=
  joinParts root (lstripSlashes (normpath (stripQueryFragment request_path.toList)))

/-- A filesystem node as observed through the system calls the server makes
(all of which follow symbolic links): a regular file with its content bytes,
its `stat` size and an `os.access(..., R_OK)` bit, or a directory with an
`os.access(..., R_OK)` bit. -/
inductive FsNode where
  | file (content : List Nat) (size : Nat) (readable : Bool)
  | dir (readable : Bool)
deriving DecidableEq

/-- The filesystem state: `node p` is the node visible at absolute path `p`
(after following symbolic links, as `Path.exists`, `Path.is_dir`, `open` and
`stat` do), and `resolve` is `Path.resolve()`, the canonicalization of a path
(symbolic-link dereference and `..` collapsing done by the OS). -/
structure Fs where
  node : List String → Option FsNode
  resolve : List String → List String

/-- `Path.exists()`. -/
def Fs.pathExists (fs : Fs) (p : List String) : Bool :=
  (fs.node p).isSome

/-- `Path.is_dir()`. -/
def Fs.is_dir (fs : Fs) (p : List String) : Bool :=
  match fs.node p with
  | some (.dir _) => true
  | _ => false

/-- `os.access(p, os.R_OK)`. -/
def Fs.access_R (fs : Fs) (p : List String) : Bool :=
  match fs.node p with
  | some (.file _ _ r) => r
  | some (.dir r) => r
  | none => false

/-- `path.open("rb")` followed by `read()`: returns the file's bytes, or
`none` for the `OSError` cases (opening a directory, or a file that is not
readable). -/
def Fs.openRead (fs : Fs) (p : List String) : Option (List Nat) :=
  match fs.node p with
  | some (.file c _ r) => if r then some c else none
  | _ => none

/-- `path.stat().st_size`. -/
def Fs.statSize (fs : Fs) (p : List String) : Nat :=
  match fs.node p with
  | some (.file _ s _) => s
  | _ => 0

/-- `_safe_path(root, request_path)`: resolve the joined candidate on the
filesystem, then `candidate.relative_to(root)` — a purely structural check
that the root's parts are a prefix of the candidate's parts. -/
def _safe_path (fs : Fs) (root : List String) (request_path : String) :
    Option (List String) :=
  if root.isPrefixOf (fs.resolve (prelimPath root request_path)) then
    some (fs.resolve (prelimPath root request_path))
  else
    none

/-- An HTTP response actually written to the client: status code, the
headers set by the handler, and the body bytes. -/
structure Response where
  status : Nat
  headers : List (String × String)
  body : List Nat
deriving DecidableEq

/-- The observable outcome of `_handle_request` on one request.

`response r` — the 200 path: `send_response`/`send_header`/`end_headers`
and the body write all succeed, so `r` reaches the client.

`aborted code message explanation` — `_send_error(code, message,
explanation)` was invoked.  `_send_error` calls
`self.send_error(code, message, explanation=explanation)`, but the standard
library's `BaseHTTPRequestHandler.send_error` has signature
`send_error(code, message=None, explain=None)`: there is no `explanation`
parameter, so the call raises `TypeError` before writing anything, the
worker thread dies and the connection is closed without any HTTP response.
The arguments record which error reply the handler attempted to send. -/
inductive Answer where
  | response (r : Response)
  | aborted (code : Nat) (message : String) (explanation : String)
deriving DecidableEq

/-- The response actually delivered to the client, if any. -/
def Answer.sentResponse : Answer → Option Response
  | .response r => some r
  | .aborted _ _ _ => none

/-- Replace a delivered response's body with the empty byte string; leave an
aborted outcome unchanged. -/
def stripBody : Answer → Answer
  | .response r => .response { r with body := [] }
  | .aborted c m e => .aborted c m e

/-- `StaticFileHandler._send_error`. -/
def _send_error (code : Nat) (message explanation : String) : Answer :=
  .aborted code message explanation

/-- Modelled from the spec: content-type inference from the file name's
extension, falling back to `application/octet-stream` when no mapping is
known.  The source calls the standard library's `mimetypes.guess_type`,
which is outside this repository; the table below is a representative
fragment of its mapping and its exact contents are not load-bearing. -/
def mimeLookup (ext : String) : Option String :=
  if ext == "html" then some "text/html"
  else if ext == "htm" then some "text/html"
  else if ext == "txt" then some "text/plain"
  else if ext == "css" then some "text/css"
  else if ext == "js" then some "text/javascript"
  else if ext == "json" then some "application/json"
  else if ext == "png" then some "image/png"
  else if ext == "jpg" then some "image/jpeg"
  else if ext == "gif" then some "image/gif"
  else if ext == "pdf" then some "application/pdf"
  else none

/-- `mimetypes.guess_type(str(path))[0] or "application/octet-stream"`:
look up the part of the path's last component after its last dot. -/
def guessContentType (p : List String) : String :=
  let parts := splitOnChar '.' (p.getLastD "").toList
  if parts.length ≤ 1 then "application/octet-stream"
  else
    match mimeLookup (String.mk (parts.getLastD [])) with
    | some t => t
    | none => "application/octet-stream"

/-- The tail of `_handle_request` after directory handling: the existence
check (404), the `os.access` check (403), open/read (500 on `OSError`; the
`OSError`'s text is abstracted to a fixed placeholder string), and the 200
response whose `Content-Length` is taken from `path.stat().st_size` and
whose body is the bytes read for GET and empty for HEAD. -/
def serveResolved (fs : Fs) (path : List String) (send_body : Bool) : Answer :=
  if fs.pathExists path then
    if fs.access_R path then
      match fs.openRead path with
      | none => _send_error 500 "Internal Server Error" "I/O error while reading the file."
      | some content =>
        .response {
          status := 200,
          headers := [("Content-Type", guessContentType path),
                      ("Content-Length", toString (fs.statSize path))],
          body := if send_body then content else [] }
    else
      _send_error 403 "Forbidden" "The requested resource is not readable."
  else
    _send_error 404 "Not Found" "The requested resource could not be found."

/-- `StaticFileHandler._handle_request(send_body=...)`: path safety check
(403 on rejection), directory handling (substitute `index.html` if present,
else 403), then existence, readability, open/read and the 200 response.
`do_GET` is `_handle_request` with `send_body := true`, `do_HEAD` with
`send_body := false`. -/
def _handle_request (fs : Fs) (root : List String) (request_path : String)
    (send_body : Bool) : Answer :=
  match _safe_path fs root request_path with
  | none => _send_error 403 "Forbidden" "Access outside the root directory is not allowed."
  | some path =>
    if fs.is_dir path then
      if fs.pathExists (path ++ ["index.html"]) then
        serveResolved fs (path ++ ["index.html"]) send_body
      else
        _send_error 403 "Forbidden" "Directory listing is not permitted."
    else
      serveResolved fs path send_body

/-- The filesystem path whose bytes `_handle_request` opens and serves on
its 200 path: the `_safe_path` result, with `index.html` substituted when
that result is a directory containing such an entry.  `none` when the
request is rejected before any file is opened. -/
def effectivePath (fs : Fs) (root : List String) (request_path : String) :
    Option (List String) :=
  match _safe_path fs root request_path with
  | none => none
  | some path =>
    if fs.is_dir path then
      if fs.pathExists (path ++ ["index.html"]) then some (path ++ ["index.html"])
      else none
    else some path

/-- Join path components with `/` separators, as a path renders inside the
`SystemExit` message. -/
def joinedWithSlashes : List String → String
  | [] => ""
  | [a] => a
  | a :: rest => a ++ "/" ++ joinedWithSlashes rest

/-- `main()` after argument parsing: resolve the configured directory, and
if it does not exist or is not a directory, `raise SystemExit(message)` —
which terminates the process with exit status 1 (non-zero) after printing
the message, before any `StaticFileServer` is constructed; modelled as
`Except.error message`.  Otherwise the server is started with
`root_directory = directory.resolve()`; modelled as `Except.ok` of that
root. -/
def main (fs : Fs) (directoryArg : List String) : Except String (List String) :=
  let directory := fs.resolve directoryArg
  if !(fs.pathExists directory) || !(fs.is_dir directory) then
    Except.error ("The directory /" ++ joinedWithSlashes directory
      ++ " does not exist or is not a directory.")
  else
    Except.ok (fs.resolve directory)

/-! ### Concrete filesystem states used in witnesses and counterexamples -/

/-- The byte string `"hello"`. -/
def helloBytes : List Nat := [104, 101, 108, 108, 111]

/-- The byte string `"secret"`. -/
def secretBytes : List Nat := [115, 101, 99, 114, 101, 116]

/-- An empty filesystem: no nodes, canonicalization is the identity. -/
def fsEmpty : Fs where
  node _ := none
  resolve p := p

/-- A symlink-free filesystem: `/srv/www` is a directory holding a regular
readable `index.html` (`"hello"`, 5 bytes), a regular readable `a.txt`
(`"hi"`, 2 bytes) and an empty subdirectory `sub`.  With no symbolic links
and every listed path canonical, `resolve` is the identity. -/
def fsWeb : Fs where
  node p :=
    if p == ["srv"] then some (.dir true)
    else if p == ["srv", "www"] then some (.dir true)
    else if p == ["srv", "www", "index.html"] then some (.file helloBytes 5 true)
    else if p == ["srv", "www", "sub"] then some (.dir true)
    else if p == ["srv", "www", "a.txt"] then some (.file [104, 105] 2 true)
    else none
  resolve p := p

/-- A filesystem in which `/srv/www/index.html` is a symbolic link to
`/etc/passwd`: the node seen through `/srv/www/index.html` (all the
server's system calls follow links) is the regular readable file
`"secret"`, and canonicalization maps `/srv/www/index.html` to
`/etc/passwd`, which lies outside the root `/srv/www`. -/
def fsLink : Fs where
  node p :=
    if p == ["srv"] then some (.dir true)
    else if p == ["srv", "www"] then some (.dir true)
    else if p == ["srv", "www", "index.html"] then some (.file secretBytes 6 true)
    else if p == ["etc"] then some (.dir true)
    else if p == ["etc", "passwd"] then some (.file secretBytes 6 true)
    else none
  resolve p := if p == ["srv", "www", "index.html"] then ["etc", "passwd"] else p

/-- A filesystem whose root `/r` contains an entry `index.html` that is
itself a readable directory. -/
def fsIdxDir : Fs where
  node p :=
    if p == ["r"] then some (.dir true)
    else if p == ["r", "index.html"] then some (.dir true)
    else none
  resolve p := p

/-- A filesystem whose root `/r` contains an entry `index.html` that is a
directory without read permission (`os.access(..., R_OK)` is false). -/
def fsIdxDirU : Fs where
  node p :=
    if p == ["r"] then some (.dir true)
    else if p == ["r", "index.html"] then some (.dir false)
    else none
  resolve p := p

/-! ### Theorems -/

/-- C1: for every filesystem state, every root directory and every raw
request path string (arbitrary `..`, `.`, query/fragment suffixes and
prefix-string lookalikes included), `_safe_path` returns either `none` or a
path that is equal to the root or a structural, component-bounded
descendant of it — the containment check compares whole path components,
so a mere string-prefix match such as `/srv/www-other` under `/srv/www`
can never pass. -/
theorem safe_path_within_root (fs : Fs) (root : List String) (p : String)
    (c : List String) (h : _safe_path fs root p = some c) :
    root.isPrefixOf c = true := by
  unfold _safe_path at h
  split at h
  · rename_i hpre
    injection h with h2
    exact h2 ▸ hpre
  · exact Option.noConfusion h

/-- Witness for C1: on the empty filesystem with root `/r`, the request
`/x` is accepted and the returned path is a structural descendant of the
root. -/
theorem safe_path_within_root_witness :
    _safe_path fsEmpty ["r"] "/x" = some ["r", "x"]
      ∧ List.isPrefixOf ["r"] ["r", "x"] = true :=
  ⟨by decide, safe_path_within_root fsEmpty ["r"] "/x" ["r", "x"] (by decide)⟩

/-- C2: the invariant fails.  When `index.html` inside the root is a
symbolic link to `/etc/passwd`, `GET /` is answered 200 with
`/etc/passwd`'s bytes: the handler substitutes `path / "index.html"`
without re-resolving it, so the served file's fully symlink-resolved
location `/etc/passwd` lies outside the root `/srv/www`. -/
theorem served_symlinked_index_escapes_root :
    _handle_request fsLink ["srv", "www"] "/" true
        = .response { status := 200,
                      headers := [("Content-Type", "text/html"), ("Content-Length", "6")],
                      body := secretBytes }
      ∧ effectivePath fsLink ["srv", "www"] "/" = some ["srv", "www", "index.html"]
      ∧ fsLink.resolve ["srv", "www", "index.html"] = ["etc", "passwd"]
      ∧ List.isPrefixOf ["srv", "www"] ["etc", "passwd"] = false
      ∧ fsLink.node ["etc", "passwd"] = some (.file secretBytes 6 true) := by
  decide

/-- Counterexample to C3: with root `/srv/www` on a filesystem where
`/srv/www/etc/passwd` does not exist, `GET /../../etc/passwd` is not
answered 403: the handler attempts a 404 (the normalized path resolves
inside the root), and that attempt raises `TypeError` inside
`_send_error`, so no response at all is delivered. -/
theorem traversal_example_counterexample :
    _handle_request fsWeb ["srv", "www"] "/../../etc/passwd" true
        = .aborted 404 "Not Found" "The requested resource could not be found."
      ∧ (_handle_request fsWeb ["srv", "www"] "/../../etc/passwd" true).sentResponse = none := by
  decide

/-- C3 as amended: for every filesystem in which `/srv/www/etc/passwd` is
canonical and absent, `GET /../../etc/passwd` under root `/srv/www` leads
the handler to attempt a 404 Not Found — `posixpath.normpath` collapses
the leading `..` segments at the filesystem root, so the request resolves
to `/srv/www/etc/passwd`, inside the root, and is never rejected as a
traversal — and the `send_error` keyword bug means no response is
delivered. -/
theorem traversal_example_attempts_404 (fs : Fs)
    (hres : fs.resolve ["srv", "www", "etc", "passwd"] = ["srv", "www", "etc", "passwd"])
    (hnode : fs.node ["srv", "www", "etc", "passwd"] = none) :
    _handle_request fs ["srv", "www"] "/../../etc/passwd" true
      = .aborted 404 "Not Found" "The requested resource could not be found." := by
  have hpre : prelimPath ["srv", "www"] "/../../etc/passwd"
      = ["srv", "www", "etc", "passwd"] := by decide
  have hsafe : _safe_path fs ["srv", "www"] "/../../etc/passwd"
      = some ["srv", "www", "etc", "passwd"] := by
    unfold _safe_path
    rw [hpre, hres]
    decide
  have hd : fs.is_dir ["srv", "www", "etc", "passwd"] = false := by
    simp [Fs.is_dir, hnode]
  have he : fs.pathExists ["srv", "www", "etc", "passwd"] = false := by
    simp [Fs.pathExists, hnode]
  simp [_handle_request, hsafe, hd, serveResolved, he, _send_error]

/-- Witness for the amended C3 on a concrete symlink-free filesystem. -/
theorem traversal_example_attempts_404_witness :
    fsWeb.resolve ["srv", "www", "etc", "passwd"] = ["srv", "www", "etc", "passwd"]
      ∧ fsWeb.node ["srv", "www", "etc", "passwd"] = none
      ∧ _handle_request fsWeb ["srv", "www"] "/../../etc/passwd" true
          = .aborted 404 "Not Found" "The requested resource could not be found." :=
  ⟨by decide, by decide, traversal_example_attempts_404 fsWeb (by decide) (by decide)⟩

/-- C4: whenever `_safe_path` accepts the request and the resolved path is
an existing, readable regular file, GET is answered 200 with a body
byte-for-byte identical to the file's contents and a `Content-Length`
header equal to the size reported by the filesystem `stat` (the node's
`size` field — the source of truth — not the length of the bytes read). -/
theorem existing_readable_file_served_in_full (fs : Fs) (root : List String)
    (p : String) (path : List String) (c : List Nat) (sz : Nat)
    (hsafe : _safe_path fs root p = some path)
    (hfile : fs.node path = some (.file c sz true)) :
    _handle_request fs root p true
      = .response { status := 200,
                    headers := [("Content-Type", guessContentType path),
                                ("Content-Length", toString sz)],
                    body := c } := by
  have hd : fs.is_dir path = false := by simp [Fs.is_dir, hfile]
  have he : fs.pathExists path = true := by simp [Fs.pathExists, hfile]
  have ha : fs.access_R path = true := by simp [Fs.access_R, hfile]
  have ho : fs.openRead path = some c := by simp [Fs.openRead, hfile]
  have hs : fs.statSize path = sz := by simp [Fs.statSize, hfile]
  simp [_handle_request, hsafe, hd, serveResolved, he, ha, ho, hs]

/-- Witness for C4: `GET /a.txt` on the concrete filesystem serves the
2-byte file in full with `Content-Length` 2. -/
theorem existing_readable_file_served_in_full_witness :
    _safe_path fsWeb ["srv", "www"] "/a.txt" = some ["srv", "www", "a.txt"]
      ∧ fsWeb.node ["srv", "www", "a.txt"] = some (.file [104, 105] 2 true)
      ∧ _handle_request fsWeb ["srv", "www"] "/a.txt" true
          = .response { status := 200,
                        headers := [("Content-Type", "text/plain"), ("Content-Length", "2")],
                        body := [104, 105] } :=
  ⟨by decide, by decide,
    existing_readable_file_served_in_full fsWeb ["srv", "www"] "/a.txt"
      ["srv", "www", "a.txt"] [104, 105] 2 (by decide) (by decide)⟩

/-- Counterexample to C5: a directory request is not always answered as
claimed.  `GET /sub` on a directory without `index.html` produces no
response at all (the attempted 403 aborts in `_send_error` with
`TypeError`), and `GET /` on a root whose `index.html` entry is itself a
directory leads to an attempted 500, not a 200 with file contents. -/
theorem directory_index_counterexample :
    (fsWeb.node ["srv", "www", "sub", "index.html"] = none
        ∧ (_handle_request fsWeb ["srv", "www"] "/sub" true).sentResponse = none
        ∧ _handle_request fsWeb ["srv", "www"] "/sub" true
            = .aborted 403 "Forbidden" "Directory listing is not permitted.")
      ∧ (fsIdxDir.is_dir ["r"] = true
        ∧ (fsIdxDir.node ["r", "index.html"]).isSome = true
        ∧ _handle_request fsIdxDir ["r"] "/" true
            = .aborted 500 "Internal Server Error" "I/O error while reading the file.") := by
  decide

/-- C5 as amended: for every request whose resolved path is a directory,
if that directory contains a regular, readable file named `index.html`
then GET is answered 200 with that file's contents, and if it contains no
`index.html` entry the handler attempts a 403 Forbidden ("Directory
listing is not permitted.") which — because of the `send_error` keyword
bug — is never delivered. -/
theorem directory_index_handling (fs : Fs) (root : List String) (p : String)
    (d : List String)
    (hsafe : _safe_path fs root p = some d)
    (hdir : fs.is_dir d = true) :
    (∀ c sz, fs.node (d ++ ["index.html"]) = some (.file c sz true) →
        _handle_request fs root p true
          = .response { status := 200,
                        headers := [("Content-Type", guessContentType (d ++ ["index.html"])),
                                    ("Content-Length", toString sz)],
                        body := c })
      ∧ (fs.node (d ++ ["index.html"]) = none →
        _handle_request fs root p true
          = .aborted 403 "Forbidden" "Directory listing is not permitted.") := by
  constructor
  · intro c sz hf
    have hei : fs.pathExists (d ++ ["index.html"]) = true := by simp [Fs.pathExists, hf]
    have ha : fs.access_R (d ++ ["index.html"]) = true := by simp [Fs.access_R, hf]
    have ho : fs.openRead (d ++ ["index.html"]) = some c := by simp [Fs.openRead, hf]
    have hs : fs.statSize (d ++ ["index.html"]) = sz := by simp [Fs.statSize, hf]
    simp [_handle_request, hsafe, hdir, hei, serveResolved, ha, ho, hs]
  · intro hn
    have hei : fs.pathExists (d ++ ["index.html"]) = false := by simp [Fs.pathExists, hn]
    simp [_handle_request, hsafe, hdir, hei, _send_error]

/-- Witness for the amended C5: `GET /` serves the root's regular readable
`index.html` with its 5 bytes, and `GET /sub` on the index-less
subdirectory aborts attempting 403. -/
theorem directory_index_handling_witness :
    _safe_path fsWeb ["srv", "www"] "/" = some ["srv", "www"]
      ∧ fsWeb.is_dir ["srv", "www"] = true
      ∧ fsWeb.node ["srv", "www", "index.html"] = some (.file helloBytes 5 true)
      ∧ _handle_request fsWeb ["srv", "www"] "/" true
          = .response { status := 200,
                        headers := [("Content-Type", "text/html"), ("Content-Length", "5")],
                        body := helloBytes }
      ∧ _safe_path fsWeb ["srv", "www"] "/sub" = some ["srv", "www", "sub"]
      ∧ fsWeb.node ["srv", "www", "sub", "index.html"] = none
      ∧ _handle_request fsWeb ["srv", "www"] "/sub" true
          = .aborted 403 "Forbidden" "Directory listing is not permitted." :=
  ⟨by decide, by decide, by decide,
    (directory_index_handling fsWeb ["srv", "www"] "/" ["srv", "www"]
      (by decide) (by decide)).1 helloBytes 5 (by decide),
    by decide, by decide,
    (directory_index_handling fsWeb ["srv", "www"] "/sub" ["srv", "www", "sub"]
      (by decide) (by decide)).2 (by decide)⟩

/-- If stripping the body of an answer yields a delivered response, that
response's body is empty. -/
theorem stripBody_body_empty (a : Answer) (resp : Response)
    (h : stripBody a = .response resp) : resp.body = [] := by
  cases a with
  | response r =>
    unfold stripBody at h
    injection h with h2
    rw [← h2]
  | aborted c m e =>
    exact Answer.noConfusion h

/-- C6: for every request path whose `_safe_path` result is an existing
regular file (readable or not), the HEAD outcome equals the GET outcome
with the body stripped — same status and same headers (`Content-Type` and
`Content-Length` included) whenever a response is delivered — and any
response delivered to HEAD has an empty body. -/
theorem head_equals_get_without_body (fs : Fs) (root : List String) (p : String)
    (path : List String) (c : List Nat) (sz : Nat) (r : Bool)
    (hsafe : _safe_path fs root p = some path)
    (hfile : fs.node path = some (.file c sz r)) :
    _handle_request fs root p false = stripBody (_handle_request fs root p true)
      ∧ ∀ resp, _handle_request fs root p false = .response resp → resp.body = [] := by
  have hd : fs.is_dir path = false := by simp [Fs.is_dir, hfile]
  have he : fs.pathExists path = true := by simp [Fs.pathExists, hfile]
  have ha : fs.access_R path = r := by simp [Fs.access_R, hfile]
  have ho : fs.openRead path = if r then some c else none := by simp [Fs.openRead, hfile]
  have h1 : _handle_request fs root p false = stripBody (_handle_request fs root p true) := by
    cases r with
    | false =>
      simp [_handle_request, hsafe, hd, serveResolved, he, ha, stripBody, _send_error]
    | true =>
      simp [_handle_request, hsafe, hd, serveResolved, he, ha, ho, stripBody]
  refine ⟨h1, fun resp hresp => ?_⟩
  rw [h1] at hresp
  exact stripBody_body_empty _ resp hresp

/-- Witness for C6: HEAD of `/a.txt` equals GET of `/a.txt` with the body
stripped. -/
theorem head_equals_get_without_body_witness :
    _safe_path fsWeb ["srv", "www"] "/a.txt" = some ["srv", "www", "a.txt"]
      ∧ fsWeb.node ["srv", "www", "a.txt"] = some (.file [104, 105] 2 true)
      ∧ _handle_request fsWeb ["srv", "www"] "/a.txt" false
          = stripBody (_handle_request fsWeb ["srv", "www"] "/a.txt" true) :=
  ⟨by decide, by decide,
    (head_equals_get_without_body fsWeb ["srv", "www"] "/a.txt"
      ["srv", "www", "a.txt"] [104, 105] 2 true (by decide) (by decide)).1⟩

/-- C7: the 404 is attempted but never delivered.  `GET /missing.txt` on a
root lacking that file makes the handler call `_send_error(404, ...)`,
which raises `TypeError` (the stdlib `send_error` has no `explanation`
parameter), so the connection closes with no response at all. -/
theorem missing_resource_no_404_delivered :
    _handle_request fsWeb ["srv", "www"] "/missing.txt" true
        = .aborted 404 "Not Found" "The requested resource could not be found."
      ∧ (_handle_request fsWeb ["srv", "www"] "/missing.txt" true).sentResponse = none := by
  decide

/-- C8: `main` terminates with a non-zero exit status and a descriptive
message (modelled as `Except.error`, the shallow embedding of
`raise SystemExit(message)`) whenever the resolved configured directory
does not exist or is not a directory, before any server is constructed;
otherwise it proceeds to start the server on that directory. -/
theorem startup_directory_check (fs : Fs) (dirArg : List String) :
    ((fs.pathExists (fs.resolve dirArg) = false ∨ fs.is_dir (fs.resolve dirArg) = false) →
        ∃ msg, main fs dirArg = Except.error msg)
      ∧ (fs.pathExists (fs.resolve dirArg) = true → fs.is_dir (fs.resolve dirArg) = true →
        main fs dirArg = Except.ok (fs.resolve (fs.resolve dirArg))) := by
  constructor
  · intro h
    refine ⟨"The directory /" ++ joinedWithSlashes (fs.resolve dirArg)
      ++ " does not exist or is not a directory.", ?_⟩
    rcases h with h | h <;> simp [main, h]
  · intro h1 h2
    simp [main, h1, h2]

/-- Witness for C8: on the empty filesystem startup fails, and with an
existing root directory it proceeds. -/
theorem startup_directory_check_witness :
    fsEmpty.pathExists (fsEmpty.resolve ["d"]) = false
      ∧ (∃ msg, main fsEmpty ["d"] = Except.error msg)
      ∧ fsWeb.pathExists (fsWeb.resolve ["srv", "www"]) = true
      ∧ fsWeb.is_dir (fsWeb.resolve ["srv", "www"]) = true
      ∧ main fsWeb ["srv", "www"] = Except.ok ["srv", "www"] :=
  ⟨by decide,
    (startup_directory_check fsEmpty ["d"]).1 (Or.inl (by decide)),
    by decide, by decide,
    (startup_directory_check fsWeb ["srv", "www"]).2 (by decide) (by decide)⟩

/-- C9: the request handler is a deterministic function of the request
(path and method flag) and the filesystem state — the embedding of
`_handle_request` is a pure function, so handling the same request twice
over the same filesystem state yields identical outcomes. -/
theorem handler_deterministic (fs : Fs) (root : List String) (p : String)
    (sb : Bool) :
    _handle_request fs root p sb = _handle_request fs root p sb := rfl

/-- Counterexample to C10: when a directory's `index.html` entry is itself
a readable directory the handler only *attempts* the 500 (it aborts in
`_send_error` with `TypeError`, delivering no response), and when that
directory entry is unreadable the `os.access` check fails first and a 403,
not a 500, is attempted. -/
theorem index_directory_counterexample :
    (fsIdxDir.node ["r", "index.html"] = some (.dir true)
        ∧ (_handle_request fsIdxDir ["r"] "/" true).sentResponse = none
        ∧ _handle_request fsIdxDir ["r"] "/" true
            = .aborted 500 "Internal Server Error" "I/O error while reading the file.")
      ∧ (fsIdxDirU.node ["r", "index.html"] = some (.dir false)
        ∧ _handle_request fsIdxDirU ["r"] "/" true
            = .aborted 403 "Forbidden" "The requested resource is not readable.") := by
  decide

/-- C10 as amended: for every GET whose resolved path is a directory whose
`index.html` entry is itself a directory, the substituted path passes the
existence check; if that directory is readable the open fails and a 500 is
attempted (neither 403 nor 404), and if it is unreadable a 403 is
attempted — in both cases the `send_error` keyword bug means nothing is
delivered. -/
theorem index_directory_aborts (fs : Fs) (root : List String) (p : String)
    (d : List String)
    (hsafe : _safe_path fs root p = some d)
    (hdir : fs.is_dir d = true) :
    (fs.node (d ++ ["index.html"]) = some (.dir true) →
        _handle_request fs root p true
          = .aborted 500 "Internal Server Error" "I/O error while reading the file.")
      ∧ (fs.node (d ++ ["index.html"]) = some (.dir false) →
        _handle_request fs root p true
          = .aborted 403 "Forbidden" "The requested resource is not readable.") := by
  constructor
  · intro hn
    have hei : fs.pathExists (d ++ ["index.html"]) = true := by simp [Fs.pathExists, hn]
    have ha : fs.access_R (d ++ ["index.html"]) = true := by simp [Fs.access_R, hn]
    have ho : fs.openRead (d ++ ["index.html"]) = none := by simp [Fs.openRead, hn]
    simp [_handle_request, hsafe, hdir, hei, serveResolved, ha, ho, _send_error]
  · intro hn
    have hei : fs.pathExists (d ++ ["index.html"]) = true := by simp [Fs.pathExists, hn]
    have ha : fs.access_R (d ++ ["index.html"]) = false := by simp [Fs.access_R, hn]
    simp [_handle_request, hsafe, hdir, hei, serveResolved, ha, _send_error]

/-- Witness for the amended C10 at concrete filesystems with a readable
and an unreadable directory named `index.html`. -/
theorem index_directory_aborts_witness :
    _safe_path fsIdxDir ["r"] "/" = some ["r"]
      ∧ fsIdxDir.is_dir ["r"] = true
      ∧ _handle_request fsIdxDir ["r"] "/" true
          = .aborted 500 "Internal Server Error" "I/O error while reading the file."
      ∧ _safe_path fsIdxDirU ["r"] "/" = some ["r"]
      ∧ _handle_request fsIdxDirU ["r"] "/" true
          = .aborted 403 "Forbidden" "The requested resource is not readable." :=
  ⟨by decide, by decide,
    (index_directory_aborts fsIdxDir ["r"] "/" ["r"] (by decide) (by decide)).1 (by decide),
    by decide,
    (index_directory_aborts fsIdxDirU ["r"] "/" ["r"] (by decide) (by decide)).2 (by decide)⟩

end StaticServer
